import Mathlib

/-!
Verification of the TDT benchmark harness (scripts/benchmark.py and
scripts/generate_baseline.py) against its natural-language specification.

The Python programs are shallowly embedded:
* a CSV record (`dict[str, str|int|float]`) becomes an association list
  `List (String × Val)` where `Val` distinguishes string, integer and
  numeric (float, modelled as `ℚ`) cells;
* the process-wide random state used by `random.choice`, `random.randint`
  and `random.uniform` becomes an oracle `Env` supplying, for each row
  index and call site, an arbitrary natural number (for `choice`/`randint`)
  or an arbitrary rational (whose fractional part models `random.random()`);
* `subprocess.run` becomes an oracle `String → ProcRes` giving the child
  process's elapsed time, exit status and captured output streams;
* Python's `round` (banker's rounding, half to even) is `pyRound`;
* `csv.DictWriter(..., extrasaction='ignore')` is `write_csv`: a header
  row plus, for each record, the projection onto the header fields with
  missing fields rendered as the empty string.
-/

namespace TDT

/-- A scalar cell value of a generated record: Python str, int, or float
(floats are modelled as exact rationals). -/
inductive Val where
  | str (s : String)
  | int (n : ℤ)
  | rat (q : ℚ)
deriving DecidableEq

/-- A record is a Python dict in insertion order: an association list from
field name to value. -/
abbrev Record := List (String × Val)

/-- Oracle for the process-wide random state: `nat i k` feeds the `k`-th
`random.choice`/`random.randint` call of row `i`, `rat i k` feeds the `k`-th
`random.uniform` call of row `i` (its fractional part plays the role of
`random.random()`). -/
structure Env where
  nat : Nat → Nat → Nat
  rat : Nat → Nat → ℚ

/-- `random.choice lst`: an arbitrary element of the (nonempty) list,
selected by the oracle value `k`. -/
def rchoice (k : Nat) (l : List String) : String :=
  l.getD (k % l.length) ""

/-- `random.randint a b`: an arbitrary integer in `[a, b]`, selected by the
oracle value `k`. -/
def randint (k a b : Nat) : Nat :=
  a + k % (b - a + 1)

/-- `random.uniform a b = a + (b - a) * random.random()` where
`random.random() ∈ [0, 1)` is modelled as the fractional part of the oracle
rational `x`. -/
def uniform (x a b : ℚ) : ℚ :=
  a + Int.fract x * (b - a)

/-- Python's built-in `round` to an integer: nearest integer, ties to even
(banker's rounding). -/
def pyRound (q : ℚ) : ℤ :=
  if Int.fract q < 1/2 then ⌊q⌋
  else if 1/2 < Int.fract q then ⌊q⌋ + 1
  else if ⌊q⌋ % 2 = 0 then ⌊q⌋ else ⌊q⌋ + 1

/-- Python's `round(q, d)` for `d` decimal places. -/
def roundTo (d : Nat) (q : ℚ) : ℚ :=
  (pyRound (q * 10 ^ d) : ℚ) / 10 ^ d

/-- The character for a decimal digit. -/
def digitChar (d : Nat) : Char := Char.ofNat (48 + d)

/-- Little-endian decimal digits of `n`, with explicit fuel so that the
recursion is structural and evaluates inside the kernel. -/
def decDigitsAux : Nat → Nat → List Nat
  | 0, _ => []
  | fuel + 1, n => if n = 0 then [] else n % 10 :: decDigitsAux fuel (n / 10)

/-- Little-endian decimal digits of `n` (equals `Nat.digits 10 n`). -/
def decDigits (n : Nat) : List Nat := decDigitsAux n n

/-- Decimal digit characters of `n`, most significant first (for `n ≥ 1`
this is Python's `str(n)`). -/
def natChars (n : Nat) : List Char :=
  ((decDigits n).reverse).map digitChar

/-- Python's `str(n)` for a positive integer `n`. -/
def natStr (n : Nat) : String := String.mk (natChars n)

/-- Python's `format(n, '0{w}d')`: decimal digits left-padded with zeros to
width `w`. -/
def padChars (w n : Nat) : List Char :=
  List.replicate (w - (natChars n).length) '0' ++ natChars n

/-- Python's `f"{n:0{w}d}"` as a string. -/
def padNum (w n : Nat) : String := String.mk (padChars w n)

/-! ## Configuration constants and vocabularies of scripts/benchmark.py -/

def NUM_REQUIREMENTS : Nat := 500
def NUM_COMPONENTS : Nat := 200
def NUM_RISKS : Nat := 100
def NUM_TESTS : Nat := 150
def NUM_SUPPLIERS : Nat := 20

def CATEGORIES : List String :=
  ["performance", "safety", "environmental", "electrical", "mechanical",
   "thermal", "reliability", "interface"]

def PRIORITIES : List String := ["critical", "high", "medium", "low"]

def STATUSES : List String := ["draft", "approved", "review"]

def REQ_TYPES : List String := ["input", "output"]

def RISK_TYPES : List String := ["design", "process"]

def TEST_TYPES : List String := ["verification", "validation"]

def TEST_LEVELS : List String := ["unit", "integration", "system", "acceptance"]

def TEST_METHODS : List String := ["test", "inspection", "analysis", "demonstration"]

/-- Weighted toward buy. -/
def MAKE_BUY : List String := ["make", "buy", "buy", "buy"]

def CMP_CATEGORIES : List String := ["mechanical", "electrical", "fastener", "consumable"]

def ADJECTIVES : List String :=
  ["Primary", "Secondary", "Auxiliary", "Main", "Critical", "Standard",
   "Enhanced", "Advanced", "Basic", "Core"]

def NOUNS_REQ : List String :=
  ["Temperature", "Pressure", "Speed", "Force", "Voltage", "Current",
   "Power", "Torque", "Flow", "Position", "Accuracy", "Repeatability",
   "Response", "Bandwidth", "Efficiency", "Life", "Weight", "Size",
   "Cost", "Noise"]

def NOUNS_CMP : List String :=
  ["Housing", "Bracket", "Shaft", "Bearing", "Seal", "Motor", "Sensor",
   "Controller", "Connector", "Cable", "Screw", "Nut", "Washer", "Spring",
   "Plate", "Cover", "Frame", "Mount", "Clip", "Gasket"]

def NOUNS_RISK : List String :=
  ["Failure", "Degradation", "Wear", "Corrosion", "Fatigue", "Overload",
   "Misalignment", "Contamination", "Overheating", "Short Circuit",
   "Leakage", "Vibration", "Noise", "Drift", "Interference"]

/-! ## Entity generators of scripts/benchmark.py -/

/-- `generate_requirements(n)`: one record per `i ∈ range n`, field values
drawn through the random oracle exactly as in the source. -/
def generate_requirements (e : Env) (n : Nat) : List Record :=
  (List.range n).map fun i =>
    let adj := rchoice (e.nat i 0) ADJECTIVES
    let noun := rchoice (e.nat i 1) NOUNS_REQ
    let cat := rchoice (e.nat i 2) CATEGORIES
    [("title", .str (adj ++ " " ++ noun ++ " Requirement " ++ natStr (i+1))),
     ("type", .str (rchoice (e.nat i 3) REQ_TYPES)),
     ("priority", .str (rchoice (e.nat i 4) PRIORITIES)),
     ("status", .str (rchoice (e.nat i 5) STATUSES)),
     ("category", .str cat),
     ("text", .str ("The system shall meet " ++ noun.toLower ++
        " requirements for " ++ cat ++ " performance.")),
     ("rationale", .str ("Required for " ++ cat ++
        " compliance and system performance.")),
     ("tags", .str (cat ++ "," ++ rchoice (e.nat i 6) PRIORITIES))]

/-- `generate_components(n)`. -/
def generate_components (e : Env) (n : Nat) : List Record :=
  (List.range n).map fun i =>
    let adj := rchoice (e.nat i 0) ADJECTIVES
    let noun := rchoice (e.nat i 1) NOUNS_CMP
    let mb := rchoice (e.nat i 2) MAKE_BUY
    let cat := rchoice (e.nat i 3) CMP_CATEGORIES
    [("part_number", .str ("PN-" ++ padNum 4 (i+1))),
     ("title", .str (adj ++ " " ++ noun ++ " " ++ natStr (i+1))),
     ("make_buy", .str mb),
     ("category", .str cat),
     ("description", .str (adj ++ " " ++ noun ++ " for system assembly")),
     ("material", .str "Various"),
     ("finish", .str "Standard"),
     ("mass", .rat (roundTo 3 (uniform (e.rat i 0) (1/100) 2))),
     ("cost", .rat (roundTo 2 (uniform (e.rat i 1) (1/2) 150))),
     ("tags", .str (cat ++ "," ++ mb))]

/-- `generate_risks(n)`. -/
def generate_risks (e : Env) (n : Nat) : List Record :=
  (List.range n).map fun i =>
    let noun := rchoice (e.nat i 0) NOUNS_RISK
    let cat := rchoice (e.nat i 1) CATEGORIES
    let rtype := rchoice (e.nat i 2) RISK_TYPES
    let sev := randint (e.nat i 3) 1 10
    let occ := randint (e.nat i 4) 1 10
    let det := randint (e.nat i 5) 1 10
    [("title", .str (noun ++ " Risk " ++ natStr (i+1))),
     ("type", .str rtype),
     ("category", .str cat),
     ("description", .str ("Potential " ++ noun.toLower ++ " in " ++ cat ++
        " subsystem")),
     ("failure_mode", .str (noun ++ " during operation")),
     ("cause", .str ("Design or process deficiency in " ++ cat ++ " area")),
     ("effect", .str ("System " ++ noun.toLower ++
        " leading to performance degradation")),
     ("severity", .int sev),
     ("occurrence", .int occ),
     ("detection", .int det),
     ("tags", .str (cat ++ "," ++ rtype))]

/-- `generate_tests(n)`. -/
def generate_tests (e : Env) (n : Nat) : List Record :=
  (List.range n).map fun i =>
    let adj := rchoice (e.nat i 0) ADJECTIVES
    let noun := rchoice (e.nat i 1) NOUNS_REQ
    let cat := rchoice (e.nat i 2) CATEGORIES
    let ttype := rchoice (e.nat i 3) TEST_TYPES
    [("title", .str (adj ++ " " ++ noun ++ " Test " ++ natStr (i+1))),
     ("type", .str ttype),
     ("level", .str (rchoice (e.nat i 4) TEST_LEVELS)),
     ("method", .str (rchoice (e.nat i 5) TEST_METHODS)),
     ("category", .str cat),
     ("priority", .str (rchoice (e.nat i 6) PRIORITIES)),
     ("objective", .str ("Verify " ++ noun.toLower ++
        " performance meets specification")),
     ("description", .str ("Test procedure for " ++ noun.toLower ++ " " ++
        cat ++ " requirements")),
     ("estimated_duration", .str (natStr (randint (e.nat i 7) 15 480) ++ " min")),
     ("tags", .str (cat ++ "," ++ ttype))]

/-- `generate_suppliers(n)`. -/
def generate_suppliers (e : Env) (n : Nat) : List Record :=
  (List.range n).map fun i =>
    [("name", .str ("Supplier Company " ++ natStr (i+1))),
     ("short_name", .str ("SUP" ++ padNum 2 (i+1))),
     ("category", .str (rchoice (e.nat i 0) CMP_CATEGORIES)),
     ("contact_name", .str ("Contact " ++ natStr (i+1))),
     ("contact_email", .str ("contact" ++ natStr (i+1) ++ "@supplier" ++
        natStr (i+1) ++ ".example")),
     ("contact_phone", .str ("+1-555-" ++ padNum 4 (i+1))),
     ("website", .str ("https://supplier" ++ natStr (i+1) ++ ".example")),
     ("tags", .str (rchoice (e.nat i 1) CMP_CATEGORIES))]

/-! ## Tabular writer (write_csv in both scripts) -/

/-- The in-memory content of a written CSV file: the header row and the
data rows (cell values, one list per record, in header order). -/
structure CsvFile where
  header : List String
  rows : List (List Val)
deriving DecidableEq, Inhabited

/-- One output row of `csv.DictWriter(f, fieldnames=headers,
extrasaction='ignore')`: the record projected onto the header fields;
record fields outside `headers` are dropped, header fields missing from
the record render as the empty string (`restval=''`). -/
def writeRow (headers : List String) (r : Record) : List Val :=
  headers.map fun f => (r.lookup f).getD (.str "")

/-- `write_csv(filepath, headers, rows)` (identical row semantics in
benchmark.py and generate_baseline.py): header row, then one projected row
per record. -/
def write_csv (headers : List String) (records : List Record) : CsvFile :=
  { header := headers, rows := records.map (writeRow headers) }

/-! ## Command runner (run_timed) -/

/-- What the operating system returns for one child process: wall-clock
elapsed time, exit status, captured stdout and stderr. -/
structure ProcRes where
  elapsed : ℚ
  returncode : ℤ
  stdout : String
  stderr : String

/-- `run_timed(cmd, label)`: runs the command through the subprocess oracle
and returns `(elapsed, success, stdout, stderr)` with
`success = (returncode == 0)`; it is a total function — a non-zero exit
status is returned as data, never raised. -/
def run_timed (proc : String → ProcRes) (cmd : String) :
    ℚ × Bool × String × String :=
  let r := proc cmd
  (r.elapsed, r.returncode == 0, r.stdout, r.stderr)

/-! ## Benchmark orchestrator (main of scripts/benchmark.py) -/

/-- Header row used for requirements.csv in benchmark.py (line 196). -/
def req_headers : List String :=
  ["title", "type", "priority", "status", "category", "text", "rationale", "tags"]

/-- Header row used for components.csv in benchmark.py (line 199). -/
def cmp_headers : List String :=
  ["part_number", "title", "make_buy", "category", "description", "material",
   "finish", "mass", "cost", "tags"]

/-- Header row used for risks.csv in benchmark.py (line 202). -/
def risk_headers : List String :=
  ["title", "type", "category", "description", "failure_mode", "cause",
   "effect", "severity", "occurrence", "detection", "tags"]

/-- Header row used for tests.csv in benchmark.py (line 205). -/
def test_headers : List String :=
  ["title", "type", "level", "method", "category", "priority", "objective",
   "description", "estimated_duration", "tags"]

/-- Header row used for suppliers.csv in benchmark.py (line 208). -/
def sup_headers : List String :=
  ["name", "short_name", "category", "contact_name", "contact_email",
   "contact_phone", "website", "tags"]

/-- Content of csvs/requirements.csv as written by main. -/
def requirements_file (e : Env) : CsvFile :=
  write_csv req_headers (generate_requirements e NUM_REQUIREMENTS)

/-- Content of csvs/components.csv as written by main. -/
def components_file (e : Env) : CsvFile :=
  write_csv cmp_headers (generate_components e NUM_COMPONENTS)

/-- Content of csvs/risks.csv as written by main. -/
def risks_file (e : Env) : CsvFile :=
  write_csv risk_headers (generate_risks e NUM_RISKS)

/-- Content of csvs/tests.csv as written by main. -/
def tests_file (e : Env) : CsvFile :=
  write_csv test_headers (generate_tests e NUM_TESTS)

/-- Content of csvs/suppliers.csv as written by main. -/
def suppliers_file (e : Env) : CsvFile :=
  write_csv sup_headers (generate_suppliers e NUM_SUPPLIERS)

/-- The import loop's specification list (benchmark.py lines 225-231):
entity-kind keyword, configured count, fixture file name, in source order. -/
def import_specs : List (String × Nat × String) :=
  [("req", NUM_REQUIREMENTS, "requirements.csv"),
   ("cmp", NUM_COMPONENTS, "components.csv"),
   ("sup", NUM_SUPPLIERS, "suppliers.csv"),
   ("risk", NUM_RISKS, "risks.csv"),
   ("test", NUM_TESTS, "tests.csv")]

/-- The command line of one import invocation:
`f"{TDT_BIN} import {etype} {csv_dir}/{csv_name}"`. -/
def importCmd (tdt csvDir etype csvName : String) : String :=
  tdt ++ " import " ++ etype ++ " " ++ csvDir ++ "/" ++ csvName

/-- The Timing-Result label of one import invocation:
`f"import {etype} ({count})"`. -/
def importLabel (etype : String) (count : Nat) : String :=
  "import " ++ etype ++ " (" ++ natStr count ++ ")"

/-- All command lines issued by the import loop, in order. -/
def importCommands (tdt csvDir : String) : List String :=
  import_specs.map fun s => importCmd tdt csvDir s.1 s.2.2

/-- The labels of the Timing Results recorded by the import loop, in order. -/
def importLabels : List String :=
  import_specs.map fun s => importLabel s.1 s.2.1

/-- The Timing Results appended by the import loop, one per entity kind,
in loop order. -/
def importResults (proc : String → ProcRes) (tdt csvDir : String) :
    List (String × ℚ × Bool) :=
  import_specs.map fun s =>
    let r := run_timed proc (importCmd tdt csvDir s.1 s.2.2)
    (importLabel s.1 s.2.1, r.1, r.2.1)

/-- The implied throughput printed by the import loop (and the validate
phase): `count / elapsed if elapsed > 0 else 0`. -/
def importRate (count : Nat) (elapsed : ℚ) : ℚ :=
  if 0 < elapsed then count / elapsed else 0

/-- Every `(command, label)` pair main feeds to `run_timed`, in program
order: init, the five imports, the two validations, the list battery, the
status/report battery and the cache battery (26 operations). -/
def allPhases (tdt csvDir : String) : List (String × String) :=
  (tdt ++ " init -q", "tdt init") ::
  (import_specs.map fun s =>
    (importCmd tdt csvDir s.1 s.2.2, importLabel s.1 s.2.1)) ++
  [(tdt ++ " validate", "validate"),
   (tdt ++ " validate --fix", "validate --fix"),
   (tdt ++ " req list", "req list (" ++ natStr NUM_REQUIREMENTS ++ ")"),
   (tdt ++ " cmp list", "cmp list (" ++ natStr NUM_COMPONENTS ++ ")"),
   (tdt ++ " risk list", "risk list (" ++ natStr NUM_RISKS ++ ")"),
   (tdt ++ " test list", "test list (" ++ natStr NUM_TESTS ++ ")"),
   (tdt ++ " req list --format json", "req list --format json"),
   (tdt ++ " req list --priority critical", "req list --priority critical"),
   (tdt ++ " risk list --by-rpn", "risk list --by-rpn"),
   (tdt ++ " req list --count", "req list --count"),
   (tdt ++ " status", "status"),
   (tdt ++ " status --detailed", "status --detailed"),
   (tdt ++ " report rvm", "report rvm"),
   (tdt ++ " report fmea", "report fmea"),
   (tdt ++ " report test-status", "report test-status"),
   (tdt ++ " report open-issues", "report open-issues"),
   (tdt ++ " trace matrix", "trace matrix"),
   (tdt ++ " cache status", "cache status"),
   (tdt ++ " cache rebuild", "cache rebuild"),
   (tdt ++ " cache rebuild", "cache rebuild (warm)")]

/-- One Timing Result as appended to `results`: `(label, elapsed, ok)`. -/
abbrev TimingResult := String × ℚ × Bool

/-- The full `results` list built by main, given the subprocess oracle. -/
def benchResults (proc : String → ProcRes) (tdt csvDir : String) :
    List TimingResult :=
  (allPhases tdt csvDir).map fun p =>
    let r := run_timed proc p.1
    (p.2, r.1, r.2.1)

/-- `total_time = sum(r[1] for r in results)`. -/
def total_time (rs : List TimingResult) : ℚ :=
  (rs.map fun r => r.2.1).sum

/-- `failed = sum(1 for r in results if not r[2])`. -/
def failedCount (rs : List TimingResult) : Nat :=
  (rs.filter fun r => !r.2.2).length

/-! ## Spec-side definitions: the ordered field lists of the schema table
in §3 of the specification, written from the spec's words for comparison
with the code-side headers and generator field sets. -/

def spec3_requirement_fields : List String :=
  ["title", "type", "priority", "status", "category", "text", "rationale", "tags"]

def spec3_component_fields : List String :=
  ["part_number", "title", "make_buy", "category", "description", "material",
   "finish", "mass", "cost", "tags"]

def spec3_supplier_fields : List String :=
  ["name", "short_name", "category", "contact_name", "contact_email",
   "contact_phone", "website", "tags"]

def spec3_risk_fields : List String :=
  ["title", "type", "category", "description", "failure_mode", "cause",
   "effect", "severity", "occurrence", "detection", "tags"]

def spec3_test_fields : List String :=
  ["title", "type", "level", "method", "category", "priority", "objective",
   "description", "estimated_duration", "tags"]

/-! ## Decoding helpers used to prove part-number uniqueness -/

/-- Reads a big-endian decimal digit string back into the number it
denotes (inverse of zero-padded formatting). -/
def decodeChars (cs : List Char) : Nat :=
  cs.foldl (fun a c => 10 * a + (c.toNat - 48)) 0

/-- Recovers `n` from a generated part number `"PN-" ++ padNum 4 n`. -/
def decodePN (s : String) : Nat := decodeChars (s.data.drop 3)

/-! ## Concrete sample inputs used by witnesses -/

/-- A concrete random oracle (all choices index 0, all uniforms 0). -/
def env0 : Env := ⟨fun _ _ => 0, fun _ _ => 0⟩

/-- A concrete subprocess oracle whose child always exits with status 1. -/
def proc0 : String → ProcRes := fun _ => ⟨1, 1, "", ""⟩

/-- The single record of `generate_requirements env0 1`. -/
def sampleRequirement : Record := (generate_requirements env0 1).head!

/-- The single record of `generate_components env0 1`. -/
def sampleComponent : Record := (generate_components env0 1).head!

/-- The single record of `generate_risks env0 1`. -/
def sampleRisk : Record := (generate_risks env0 1).head!

/-! ## Baseline-fixture generator (scripts/generate_baseline.py)

Its record data are static literal tables; the module imports `random`
but never calls it, so its output does not depend on the random oracle. -/

namespace Baseline

/-- The REQUIREMENTS literal table of generate_baseline.py. -/
def REQUIREMENTS : List Record :=
  [[("title", .str "Stroke Length"), ("type", .str "input"),
    ("priority", .str "critical"), ("status", .str "approved"),
    ("text", .str "The actuator shall have a stroke length of 150mm ± 1mm"),
    ("category", .str "performance"),
    ("rationale", .str "Required for full range of motion in target application"),
    ("tags", .str "mechanical,critical")],
   [("title", .str "Maximum Force"), ("type", .str "input"),
    ("priority", .str "critical"), ("status", .str "approved"),
    ("text", .str "The actuator shall produce a minimum of 500N continuous force"),
    ("category", .str "performance"),
    ("rationale", .str "Load requirements from customer specification"),
    ("tags", .str "mechanical,force")],
   [("title", .str "Speed Range"), ("type", .str "input"),
    ("priority", .str "high"), ("status", .str "approved"),
    ("text", .str "The actuator shall achieve speeds from 5mm/s to 50mm/s"),
    ("category", .str "performance"),
    ("rationale", .str "Variable speed required for different operating modes"),
    ("tags", .str "mechanical,speed")],
   [("title", .str "Positioning Accuracy"), ("type", .str "input"),
    ("priority", .str "high"), ("status", .str "approved"),
    ("text", .str "Position repeatability shall be ±0.1mm"),
    ("category", .str "performance"),
    ("rationale", .str "Precision positioning required for automation application"),
    ("tags", .str "mechanical,precision")],
   [("title", .str "Duty Cycle"), ("type", .str "input"),
    ("priority", .str "medium"), ("status", .str "approved"),
    ("text", .str "The actuator shall operate at 25% duty cycle minimum"),
    ("category", .str "performance"),
    ("rationale", .str "Industrial application requires sustained operation"),
    ("tags", .str "electrical,thermal")],
   [("title", .str "Operating Temperature"), ("type", .str "input"),
    ("priority", .str "high"), ("status", .str "approved"),
    ("text", .str "The actuator shall operate from -20°C to +50°C ambient"),
    ("category", .str "environmental"),
    ("rationale", .str "Industrial environment temperature range"),
    ("tags", .str "environmental,thermal")],
   [("title", .str "IP Rating"), ("type", .str "input"),
    ("priority", .str "high"), ("status", .str "approved"),
    ("text", .str "The actuator shall meet IP65 ingress protection"),
    ("category", .str "environmental"),
    ("rationale", .str "Protection against dust and water jets required"),
    ("tags", .str "environmental,sealing")],
   [("title", .str "Vibration Resistance"), ("type", .str "input"),
    ("priority", .str "medium"), ("status", .str "approved"),
    ("text", .str "The actuator shall withstand 2G vibration 10-500Hz"),
    ("category", .str "environmental"),
    ("rationale", .str "Mounted on vibrating machinery"),
    ("tags", .str "environmental,mechanical")],
   [("title", .str "EMC Compliance"), ("type", .str "input"),
    ("priority", .str "medium"), ("status", .str "approved"),
    ("text", .str "The actuator shall comply with EN 61000-6-2 and EN 61000-6-4"),
    ("category", .str "environmental"),
    ("rationale", .str "Required for CE marking"),
    ("tags", .str "electrical,regulatory")],
   [("title", .str "Input Voltage"), ("type", .str "input"),
    ("priority", .str "critical"), ("status", .str "approved"),
    ("text", .str "The actuator shall operate from 24VDC ±10%"),
    ("category", .str "electrical"),
    ("rationale", .str "Standard industrial control voltage"),
    ("tags", .str "electrical,power")],
   [("title", .str "Power Consumption"), ("type", .str "input"),
    ("priority", .str "medium"), ("status", .str "approved"),
    ("text", .str "Maximum power consumption shall not exceed 150W"),
    ("category", .str "electrical"),
    ("rationale", .str "Power budget constraint from system design"),
    ("tags", .str "electrical,power")],
   [("title", .str "Control Interface"), ("type", .str "input"),
    ("priority", .str "high"), ("status", .str "approved"),
    ("text", .str "The actuator shall provide RS-485 Modbus RTU interface"),
    ("category", .str "electrical"),
    ("rationale", .str "Integration with industrial PLCs"),
    ("tags", .str "electrical,interface")],
   [("title", .str "Feedback Signal"), ("type", .str "input"),
    ("priority", .str "high"), ("status", .str "approved"),
    ("text", .str "The actuator shall provide analog 0-10V position feedback"),
    ("category", .str "electrical"),
    ("rationale", .str "Closed-loop position control requirement"),
    ("tags", .str "electrical,feedback")],
   [("title", .str "Mounting Interface"), ("type", .str "input"),
    ("priority", .str "medium"), ("status", .str "approved"),
    ("text", .str "The actuator shall have ISO 15552 compliant mounting"),
    ("category", .str "mechanical"),
    ("rationale", .str "Standard mounting for easy integration"),
    ("tags", .str "mechanical,interface")],
   [("title", .str "Rod End Connection"), ("type", .str "input"),
    ("priority", .str "medium"), ("status", .str "approved"),
    ("text", .str "The actuator rod shall have M10x1.25 male thread"),
    ("category", .str "mechanical"),
    ("rationale", .str "Standard thread for load attachment"),
    ("tags", .str "mechanical,interface")],
   [("title", .str "Weight Limit"), ("type", .str "input"),
    ("priority", .str "low"), ("status", .str "approved"),
    ("text", .str "Total actuator weight shall not exceed 3.5kg"),
    ("category", .str "mechanical"),
    ("rationale", .str "Installation handling requirement"),
    ("tags", .str "mechanical,weight")],
   [("title", .str "Overload Protection"), ("type", .str "input"),
    ("priority", .str "critical"), ("status", .str "approved"),
    ("text", .str "The actuator shall detect and respond to overload within 100ms"),
    ("category", .str "safety"),
    ("rationale", .str "Prevent damage from obstruction or jamming"),
    ("tags", .str "safety,protection")],
   [("title", .str "Limit Switches"), ("type", .str "input"),
    ("priority", .str "high"), ("status", .str "approved"),
    ("text", .str "The actuator shall have adjustable end-of-travel limits"),
    ("category", .str "safety"),
    ("rationale", .str "Prevent mechanical over-travel damage"),
    ("tags", .str "safety,mechanical")],
   [("title", .str "Manual Override"), ("type", .str "input"),
    ("priority", .str "medium"), ("status", .str "approved"),
    ("text", .str "The actuator shall allow manual movement when unpowered"),
    ("category", .str "safety"),
    ("rationale", .str "Emergency release capability"),
    ("tags", .str "safety,manual")],
   [("title", .str "Design Life"), ("type", .str "input"),
    ("priority", .str "high"), ("status", .str "approved"),
    ("text", .str "The actuator shall achieve 1 million full stroke cycles minimum"),
    ("category", .str "reliability"),
    ("rationale", .str "5-year service life at expected usage rate"),
    ("tags", .str "reliability,life")],
   [("title", .str "MTBF"), ("type", .str "input"),
    ("priority", .str "medium"), ("status", .str "approved"),
    ("text", .str "MTBF shall exceed 50,000 operating hours"),
    ("category", .str "reliability"),
    ("rationale", .str "Industrial reliability requirement"),
    ("tags", .str "reliability,mtbf")],
   [("title", .str "Motor Selection"), ("type", .str "output"),
    ("priority", .str "high"), ("status", .str "approved"),
    ("text", .str "Motor shall be NEMA 23 brushless DC, minimum 0.5Nm continuous torque"),
    ("category", .str "electrical"),
    ("rationale", .str "Derived from force and speed requirements"),
    ("tags", .str "electrical,motor")],
   [("title", .str "Lead Screw Pitch"), ("type", .str "output"),
    ("priority", .str "high"), ("status", .str "approved"),
    ("text", .str "Lead screw pitch shall be 5mm for optimal speed/force tradeoff"),
    ("category", .str "mechanical"),
    ("rationale", .str "Calculated from speed and force requirements"),
    ("tags", .str "mechanical,drivetrain")],
   [("title", .str "Bearing Selection"), ("type", .str "output"),
    ("priority", .str "medium"), ("status", .str "approved"),
    ("text", .str "Support bearings shall be angular contact with C3 clearance"),
    ("category", .str "mechanical"),
    ("rationale", .str "Required for axial load and temperature range"),
    ("tags", .str "mechanical,bearings")],
   [("title", .str "Seal Design"), ("type", .str "output"),
    ("priority", .str "high"), ("status", .str "approved"),
    ("text", .str "Rod seal shall be double-lip NBR with dust wiper"),
    ("category", .str "mechanical"),
    ("rationale", .str "Required for IP65 rating at operating temperature"),
    ("tags", .str "mechanical,sealing")]]

/-- The COMPONENTS literal table of generate_baseline.py. -/
def COMPONENTS : List Record :=
  [[("part_number", .str "LA-HSG-001"), ("title", .str "Main Housing"),
    ("make_buy", .str "make"), ("category", .str "mechanical"),
    ("description", .str "Extruded aluminum housing with machined features"),
    ("material", .str "6063-T6 Aluminum"), ("finish", .str "Clear anodize"),
    ("mass", .rat 0.850), ("cost", .rat 45.00),
    ("tags", .str "structural,machined")],
   [("part_number", .str "LA-CAP-001"), ("title", .str "Front End Cap"),
    ("make_buy", .str "make"), ("category", .str "mechanical"),
    ("description", .str "Machined end cap with seal groove and bearing bore"),
    ("material", .str "6061-T6 Aluminum"), ("finish", .str "Clear anodize"),
    ("mass", .rat 0.120), ("cost", .rat 18.00),
    ("tags", .str "structural,machined")],
   [("part_number", .str "LA-CAP-002"), ("title", .str "Rear End Cap"),
    ("make_buy", .str "make"), ("category", .str "mechanical"),
    ("description", .str "Machined end cap with motor mount and bearing bore"),
    ("material", .str "6061-T6 Aluminum"), ("finish", .str "Clear anodize"),
    ("mass", .rat 0.180), ("cost", .rat 22.00),
    ("tags", .str "structural,machined")],
   [("part_number", .str "LA-ROD-001"), ("title", .str "Extension Rod"),
    ("make_buy", .str "make"), ("category", .str "mechanical"),
    ("description", .str "Ground and chrome plated piston rod"),
    ("material", .str "1045 Steel"), ("finish", .str "Hard chrome"),
    ("mass", .rat 0.340), ("cost", .rat 35.00),
    ("tags", .str "precision,ground")],
   [("part_number", .str "LA-NUT-001"), ("title", .str "Lead Screw Nut"),
    ("make_buy", .str "make"), ("category", .str "mechanical"),
    ("description", .str "Bronze lead screw nut with anti-backlash feature"),
    ("material", .str "C93200 Bronze"), ("finish", .str "As machined"),
    ("mass", .rat 0.085), ("cost", .rat 28.00),
    ("tags", .str "precision,wear")],
   [("part_number", .str "LA-SCR-001"), ("title", .str "Lead Screw"),
    ("make_buy", .str "buy"), ("category", .str "mechanical"),
    ("description", .str "Precision ground lead screw Tr16x5"),
    ("material", .str "1045 Steel hardened"), ("finish", .str "Black oxide"),
    ("mass", .rat 0.420), ("cost", .rat 65.00),
    ("tags", .str "precision,drivetrain")],
   [("part_number", .str "LA-BRG-001"), ("title", .str "Front Bearing"),
    ("make_buy", .str "buy"), ("category", .str "mechanical"),
    ("description", .str "Angular contact bearing 6002-2RS"),
    ("material", .str "52100 Steel"), ("finish", .str "Standard"),
    ("mass", .rat 0.032), ("cost", .rat 8.50),
    ("tags", .str "bearing,precision")],
   [("part_number", .str "LA-BRG-002"), ("title", .str "Rear Bearing"),
    ("make_buy", .str "buy"), ("category", .str "mechanical"),
    ("description", .str "Deep groove bearing 6003-2RS"),
    ("material", .str "52100 Steel"), ("finish", .str "Standard"),
    ("mass", .rat 0.042), ("cost", .rat 6.50),
    ("tags", .str "bearing,support")],
   [("part_number", .str "LA-SEL-001"), ("title", .str "Rod Seal"),
    ("make_buy", .str "buy"), ("category", .str "mechanical"),
    ("description", .str "Double-lip rod seal 16x24x7"),
    ("material", .str "NBR rubber"), ("finish", .str "Standard"),
    ("mass", .rat 0.008), ("cost", .rat 3.25),
    ("tags", .str "seal,wear")],
   [("part_number", .str "LA-SEL-002"), ("title", .str "Dust Wiper"),
    ("make_buy", .str "buy"), ("category", .str "mechanical"),
    ("description", .str "Polyurethane dust wiper 16x22x4"),
    ("material", .str "Polyurethane"), ("finish", .str "Standard"),
    ("mass", .rat 0.004), ("cost", .rat 1.85),
    ("tags", .str "seal,protection")],
   [("part_number", .str "LA-ORI-001"), ("title", .str "End Cap O-Ring"),
    ("make_buy", .str "buy"), ("category", .str "mechanical"),
    ("description", .str "Static O-ring 45x3.5 NBR 70A"),
    ("material", .str "NBR rubber"), ("finish", .str "Standard"),
    ("mass", .rat 0.006), ("cost", .rat 0.45),
    ("tags", .str "seal,static")],
   [("part_number", .str "LA-MOT-001"), ("title", .str "BLDC Motor"),
    ("make_buy", .str "buy"), ("category", .str "electrical"),
    ("description", .str "NEMA 23 brushless DC motor 24V 0.6Nm"),
    ("material", .str "Various"), ("finish", .str "Black powder coat"),
    ("mass", .rat 0.580), ("cost", .rat 85.00),
    ("tags", .str "motor,drivetrain")],
   [("part_number", .str "LA-ENC-001"), ("title", .str "Rotary Encoder"),
    ("make_buy", .str "buy"), ("category", .str "electrical"),
    ("description", .str "Incremental encoder 1000 PPR"),
    ("material", .str "Various"), ("finish", .str "Standard"),
    ("mass", .rat 0.045), ("cost", .rat 28.00),
    ("tags", .str "sensor,feedback")],
   [("part_number", .str "LA-DRV-001"), ("title", .str "Motor Driver"),
    ("make_buy", .str "buy"), ("category", .str "electrical"),
    ("description", .str "BLDC motor driver module 24V 10A"),
    ("material", .str "PCB assembly"), ("finish", .str "Conformal coat"),
    ("mass", .rat 0.065), ("cost", .rat 42.00),
    ("tags", .str "electronics,control")],
   [("part_number", .str "LA-LIM-001"), ("title", .str "Limit Switch"),
    ("make_buy", .str "buy"), ("category", .str "electrical"),
    ("description", .str "Micro limit switch with lever"),
    ("material", .str "Various"), ("finish", .str "Standard"),
    ("mass", .rat 0.012), ("cost", .rat 2.80),
    ("tags", .str "sensor,safety")],
   [("part_number", .str "LA-CON-001"), ("title", .str "Power Connector"),
    ("make_buy", .str "buy"), ("category", .str "electrical"),
    ("description", .str "M12 4-pin power connector IP67"),
    ("material", .str "Brass/plastic"), ("finish", .str "Nickel plate"),
    ("mass", .rat 0.025), ("cost", .rat 8.50),
    ("tags", .str "connector,interface")],
   [("part_number", .str "LA-CON-002"), ("title", .str "Signal Connector"),
    ("make_buy", .str "buy"), ("category", .str "electrical"),
    ("description", .str "M12 8-pin signal connector IP67"),
    ("material", .str "Brass/plastic"), ("finish", .str "Nickel plate"),
    ("mass", .rat 0.028), ("cost", .rat 12.00),
    ("tags", .str "connector,interface")],
   [("part_number", .str "LA-FST-001"), ("title", .str "End Cap Screws"),
    ("make_buy", .str "buy"), ("category", .str "fastener"),
    ("description", .str "M4x12 socket head cap screw A2-70"),
    ("material", .str "Stainless steel"), ("finish", .str "Passivated"),
    ("mass", .rat 0.003), ("cost", .rat 0.08),
    ("tags", .str "fastener,assembly")],
   [("part_number", .str "LA-FST-002"), ("title", .str "Motor Mount Screws"),
    ("make_buy", .str "buy"), ("category", .str "fastener"),
    ("description", .str "M3x8 socket head cap screw A2-70"),
    ("material", .str "Stainless steel"), ("finish", .str "Passivated"),
    ("mass", .rat 0.002), ("cost", .rat 0.06),
    ("tags", .str "fastener,assembly")],
   [("part_number", .str "LA-CON-003"), ("title", .str "Thread Locker"),
    ("make_buy", .str "buy"), ("category", .str "consumable"),
    ("description", .str "Loctite 243 medium strength"),
    ("material", .str "Anaerobic adhesive"), ("finish", .str "N/A"),
    ("mass", .rat 0.001), ("cost", .rat 0.15),
    ("tags", .str "consumable,assembly")]]

/-- The SUPPLIERS literal table of generate_baseline.py. -/
def SUPPLIERS : List Record :=
  [[("name", .str "Precision Motion Systems"), ("short_name", .str "PMS"),
    ("category", .str "drivetrain"), ("contact_name", .str "Mike Chen"),
    ("contact_email", .str "mchen@precisionmotion.example"),
    ("contact_phone", .str "+1-555-0101"),
    ("website", .str "https://precisionmotion.example"),
    ("tags", .str "motors,screws,bearings")],
   [("name", .str "Allied Sealing Technologies"), ("short_name", .str "AST"),
    ("category", .str "sealing"), ("contact_name", .str "Sarah Johnson"),
    ("contact_email", .str "sjohnson@alliedsealing.example"),
    ("contact_phone", .str "+1-555-0102"),
    ("website", .str "https://alliedsealing.example"),
    ("tags", .str "seals,orings")],
   [("name", .str "Global Electronics Supply"), ("short_name", .str "GES"),
    ("category", .str "electronics"), ("contact_name", .str "David Park"),
    ("contact_email", .str "dpark@globalelec.example"),
    ("contact_phone", .str "+1-555-0103"),
    ("website", .str "https://globalelec.example"),
    ("tags", .str "electronics,connectors,sensors")],
   [("name", .str "MetalWorks CNC"), ("short_name", .str "MWCNC"),
    ("category", .str "machining"), ("contact_name", .str "Tom Williams"),
    ("contact_email", .str "twilliams@metalworkscnc.example"),
    ("contact_phone", .str "+1-555-0104"),
    ("website", .str "https://metalworkscnc.example"),
    ("tags", .str "machining,make")],
   [("name", .str "FastenerWorld"), ("short_name", .str "FW"),
    ("category", .str "fasteners"), ("contact_name", .str "Lisa Brown"),
    ("contact_email", .str "lbrown@fastenerworld.example"),
    ("contact_phone", .str "+1-555-0105"),
    ("website", .str "https://fastenerworld.example"),
    ("tags", .str "fasteners,hardware")]]

/-- The RISKS literal table of generate_baseline.py. -/
def RISKS : List Record :=
  [[("title", .str "Motor Overheating"), ("type", .str "design"),
    ("category", .str "thermal"),
    ("description", .str "Motor may overheat under continuous high-load operation"),
    ("failure_mode", .str "Thermal shutdown or winding damage during extended operation"),
    ("cause", .str "Insufficient heat dissipation path from motor to housing"),
    ("effect", .str "System shutdown, potential motor damage, warranty returns"),
    ("severity", .int 7), ("occurrence", .int 4), ("detection", .int 5),
    ("tags", .str "thermal,motor")],
   [("title", .str "Lead Screw Wear"), ("type", .str "design"),
    ("category", .str "wear"),
    ("description", .str "Accelerated wear on lead screw nut interface"),
    ("failure_mode", .str "Excessive backlash and positioning error over time"),
    ("cause", .str "Inadequate lubrication or contamination ingress"),
    ("effect", .str "Degraded positioning accuracy, shortened service life"),
    ("severity", .int 6), ("occurrence", .int 5), ("detection", .int 6),
    ("tags", .str "wear,drivetrain")],
   [("title", .str "Seal Failure"), ("type", .str "design"),
    ("category", .str "sealing"),
    ("description", .str "Rod seal may fail under extreme temperature cycling"),
    ("failure_mode", .str "Seal extrusion or hardening leading to leakage"),
    ("cause", .str "Temperature cycling beyond seal material limits"),
    ("effect", .str "Loss of IP65 rating, contamination ingress"),
    ("severity", .int 8), ("occurrence", .int 3), ("detection", .int 4),
    ("tags", .str "sealing,environmental")],
   [("title", .str "Encoder Miscounting"), ("type", .str "design"),
    ("category", .str "electrical"),
    ("description", .str "Encoder may miscount under EMI conditions"),
    ("failure_mode", .str "Position feedback errors and drift"),
    ("cause", .str "Insufficient EMI shielding on encoder signals"),
    ("effect", .str "Positioning errors, potential safety issue"),
    ("severity", .int 7), ("occurrence", .int 3), ("detection", .int 5),
    ("tags", .str "electrical,emc")],
   [("title", .str "Bearing Preload Loss"), ("type", .str "design"),
    ("category", .str "mechanical"),
    ("description", .str "Angular contact bearing preload may change with temperature"),
    ("failure_mode", .str "Increased axial play or excessive preload"),
    ("cause", .str "Differential thermal expansion in bearing assembly"),
    ("effect", .str "Reduced life, noise, or binding"),
    ("severity", .int 5), ("occurrence", .int 4), ("detection", .int 6),
    ("tags", .str "mechanical,bearings")],
   [("title", .str "Housing Bore Tolerance"), ("type", .str "process"),
    ("category", .str "machining"),
    ("description", .str "Housing bore may go out of tolerance"),
    ("failure_mode", .str "Bore diameter or concentricity out of specification"),
    ("cause", .str "Tool wear, thermal growth, or setup error"),
    ("effect", .str "Bearing fit issues, assembly problems"),
    ("severity", .int 6), ("occurrence", .int 4), ("detection", .int 3),
    ("tags", .str "machining,dimensional")],
   [("title", .str "Anodize Thickness Variation"), ("type", .str "process"),
    ("category", .str "finishing"),
    ("description", .str "Anodize coating may have thickness variation"),
    ("failure_mode", .str "Uneven or out-of-spec coating thickness"),
    ("cause", .str "Bath chemistry variation or rack positioning"),
    ("effect", .str "Fit issues with bearings, cosmetic defects"),
    ("severity", .int 4), ("occurrence", .int 5), ("detection", .int 4),
    ("tags", .str "finishing,surface")],
   [("title", .str "Wrong Fastener Torque"), ("type", .str "process"),
    ("category", .str "assembly"),
    ("description", .str "Fasteners may be under or over-torqued"),
    ("failure_mode", .str "Loose or stripped fasteners"),
    ("cause", .str "Operator error or uncalibrated tools"),
    ("effect", .str "Assembly loosening in service or stripped threads"),
    ("severity", .int 6), ("occurrence", .int 4), ("detection", .int 5),
    ("tags", .str "assembly,fastener")],
   [("title", .str "Seal Installation Damage"), ("type", .str "process"),
    ("category", .str "assembly"),
    ("description", .str "Seals may be damaged during installation"),
    ("failure_mode", .str "Cut, twisted, or improperly seated seal"),
    ("cause", .str "Sharp edges, improper technique, or missing lubrication"),
    ("effect", .str "Immediate or premature seal failure"),
    ("severity", .int 7), ("occurrence", .int 4), ("detection", .int 5),
    ("tags", .str "assembly,sealing")],
   [("title", .str "Motor-Screw Misalignment"), ("type", .str "process"),
    ("category", .str "assembly"),
    ("description", .str "Motor shaft may be misaligned with lead screw"),
    ("failure_mode", .str "Angular or parallel misalignment"),
    ("cause", .str "Tolerance stackup or coupling installation error"),
    ("effect", .str "Vibration, noise, reduced bearing life"),
    ("severity", .int 5), ("occurrence", .int 5), ("detection", .int 4),
    ("tags", .str "assembly,alignment")]]

/-- The TESTS literal table of generate_baseline.py. -/
def TESTS : List Record :=
  [[("title", .str "Stroke Length Verification"), ("type", .str "verification"),
    ("level", .str "system"), ("method", .str "test"),
    ("category", .str "dimensional"), ("priority", .str "critical"),
    ("objective", .str "Verify actuator achieves specified stroke length"),
    ("description", .str "Measure full stroke extension and retraction using calibrated linear scale"),
    ("estimated_duration", .str "15 min"), ("tags", .str "dimensional,critical")],
   [("title", .str "Force Output Test"), ("type", .str "verification"),
    ("level", .str "system"), ("method", .str "test"),
    ("category", .str "performance"), ("priority", .str "critical"),
    ("objective", .str "Verify actuator produces specified continuous force"),
    ("description", .str "Apply increasing load via dynamometer until stall, measure continuous force capability"),
    ("estimated_duration", .str "30 min"), ("tags", .str "force,performance")],
   [("title", .str "Speed Range Verification"), ("type", .str "verification"),
    ("level", .str "system"), ("method", .str "test"),
    ("category", .str "performance"), ("priority", .str "high"),
    ("objective", .str "Verify actuator speed range meets specification"),
    ("description", .str "Measure extension/retraction speed at min and max settings using high-speed camera or laser"),
    ("estimated_duration", .str "20 min"), ("tags", .str "speed,performance")],
   [("title", .str "Position Repeatability Test"), ("type", .str "verification"),
    ("level", .str "system"), ("method", .str "test"),
    ("category", .str "performance"), ("priority", .str "high"),
    ("objective", .str "Verify position repeatability specification"),
    ("description", .str "Command 10 cycles to same position, measure variation with dial indicator"),
    ("estimated_duration", .str "45 min"), ("tags", .str "precision,performance")],
   [("title", .str "IP65 Ingress Test"), ("type", .str "verification"),
    ("level", .str "system"), ("method", .str "test"),
    ("category", .str "environmental"), ("priority", .str "high"),
    ("objective", .str "Verify IP65 dust and water jet protection"),
    ("description", .str "Subject to dust chamber test and 6.3mm water jet at 12.5 l/min per IEC 60529"),
    ("estimated_duration", .str "4 hr"), ("tags", .str "environmental,sealing")],
   [("title", .str "Temperature Cycling Test"), ("type", .str "verification"),
    ("level", .str "system"), ("method", .str "test"),
    ("category", .str "environmental"), ("priority", .str "high"),
    ("objective", .str "Verify operation across temperature range"),
    ("description", .str "Operate through 10 cycles of -20°C to +50°C with 30 min dwells"),
    ("estimated_duration", .str "24 hr"), ("tags", .str "environmental,thermal")],
   [("title", .str "EMC Emissions Test"), ("type", .str "verification"),
    ("level", .str "system"), ("method", .str "test"),
    ("category", .str "electrical"), ("priority", .str "medium"),
    ("objective", .str "Verify compliance with EN 61000-6-4 emissions limits"),
    ("description", .str "Conducted and radiated emissions per EN 55011"),
    ("estimated_duration", .str "8 hr"), ("tags", .str "emc,regulatory")],
   [("title", .str "Motor Thermal Test"), ("type", .str "verification"),
    ("level", .str "unit"), ("method", .str "test"),
    ("category", .str "thermal"), ("priority", .str "high"),
    ("objective", .str "Verify motor temperature rise is acceptable"),
    ("description", .str "Run at rated load for 2 hours, monitor winding temperature via resistance"),
    ("estimated_duration", .str "3 hr"), ("tags", .str "thermal,motor")],
   [("title", .str "Housing Dimensional Inspection"), ("type", .str "verification"),
    ("level", .str "unit"), ("method", .str "inspection"),
    ("category", .str "dimensional"), ("priority", .str "high"),
    ("objective", .str "Verify housing critical dimensions"),
    ("description", .str "CMM inspection of bearing bores, seal grooves, and mounting features"),
    ("estimated_duration", .str "45 min"), ("tags", .str "dimensional,machined")],
   [("title", .str "First Article Inspection"), ("type", .str "verification"),
    ("level", .str "system"), ("method", .str "inspection"),
    ("category", .str "dimensional"), ("priority", .str "critical"),
    ("objective", .str "Complete dimensional inspection of first production unit"),
    ("description", .str "Full CMM inspection per drawing requirements"),
    ("estimated_duration", .str "4 hr"), ("tags", .str "fai,dimensional")],
   [("title", .str "Customer Application Trial"), ("type", .str "validation"),
    ("level", .str "acceptance"), ("method", .str "demonstration"),
    ("category", .str "application"), ("priority", .str "high"),
    ("objective", .str "Validate actuator performance in customer application"),
    ("description", .str "Install in customer machine, run typical duty cycle for 1 week"),
    ("estimated_duration", .str "168 hr"), ("tags", .str "validation,customer")],
   [("title", .str "Lifecycle Durability Test"), ("type", .str "validation"),
    ("level", .str "system"), ("method", .str "test"),
    ("category", .str "reliability"), ("priority", .str "high"),
    ("objective", .str "Validate actuator achieves design life cycles"),
    ("description", .str "Continuous cycling at rated load until failure or 1M cycles"),
    ("estimated_duration", .str "2000 hr"), ("tags", .str "reliability,endurance")]]

/-- Requirement header of generate_baseline.py main (line 382): note
`text` and `rationale` come before `category`. -/
def baseline_req_headers : List String :=
  ["title", "type", "priority", "status", "text", "rationale", "category", "tags"]

/-- Component header of generate_baseline.py main (line 386). -/
def baseline_cmp_headers : List String :=
  ["part_number", "title", "make_buy", "category", "description", "material",
   "finish", "mass", "cost", "tags"]

/-- Supplier header of generate_baseline.py main (line 390). -/
def baseline_sup_headers : List String :=
  ["name", "short_name", "category", "contact_name", "contact_email",
   "contact_phone", "website", "tags"]

/-- Risk header of generate_baseline.py main (line 394). -/
def baseline_risk_headers : List String :=
  ["title", "type", "category", "description", "failure_mode", "cause",
   "effect", "severity", "occurrence", "detection", "tags"]

/-- Test header of generate_baseline.py main (line 398). -/
def baseline_test_headers : List String :=
  ["title", "type", "level", "method", "category", "priority", "objective",
   "description", "estimated_duration", "tags"]

/-- The five fixture files written by one run of generate_baseline.py main,
as (file name, content) pairs.  The `Env` argument stands for the process's
random state: the module imports `random` but never invokes it, so the
output ignores it. -/
def baseline_files (_e : Env) : List (String × CsvFile) :=
  [("requirements.csv", write_csv baseline_req_headers REQUIREMENTS),
   ("components.csv", write_csv baseline_cmp_headers COMPONENTS),
   ("suppliers.csv", write_csv baseline_sup_headers SUPPLIERS),
   ("risks.csv", write_csv baseline_risk_headers RISKS),
   ("tests.csv", write_csv baseline_test_headers TESTS)]

end Baseline

/-! ## Helper lemmas -/

theorem decDigitsAux_eq_digits (fuel : Nat) :
    ∀ n : Nat, n ≤ fuel → decDigitsAux fuel n = Nat.digits 10 n := by
  induction fuel with
  | zero =>
    intro n h
    have hn : n = 0 := Nat.le_zero.mp h
    subst hn
    simp [decDigitsAux]
  | succ f ih =>
    intro n h
    by_cases hn : n = 0
    · subst hn; simp [decDigitsAux]
    · have hdiv : n / 10 < n := Nat.div_lt_self (Nat.pos_of_ne_zero hn) (by norm_num)
      rw [decDigitsAux, if_neg hn, ih (n / 10) (by omega),
        ← Nat.digits_def' (by norm_num : (1:ℕ) < 10) (Nat.pos_of_ne_zero hn)]

theorem decDigits_eq_digits (n : Nat) : decDigits n = Nat.digits 10 n :=
  decDigitsAux_eq_digits n n le_rfl

theorem digitChar_toNat : ∀ d < 10, (digitChar d).toNat = 48 + d := by decide

theorem foldl_digits_reverse (L : List Nat) (a : Nat) :
    L.reverse.foldl (fun x d => 10 * x + d) a
      = a * 10 ^ L.length + Nat.ofDigits 10 L := by
  induction L generalizing a with
  | nil => simp
  | cons d L ih =>
    rw [List.reverse_cons, List.foldl_append, ih]
    simp only [List.foldl_cons, List.foldl_nil, Nat.ofDigits_cons,
      List.length_cons]
    ring

theorem foldl_digit_step (L : List Nat) (hL : ∀ d ∈ L, d < 10) :
    ∀ a : Nat, L.foldl (fun x d => 10 * x + ((digitChar d).toNat - 48)) a
      = L.foldl (fun x d => 10 * x + d) a := by
  induction L with
  | nil => intro a; rfl
  | cons d L ih =>
    intro a
    have hd : d < 10 := hL d (List.mem_cons_self d L)
    simp only [List.foldl_cons]
    rw [digitChar_toNat d hd, show 48 + d - 48 = d by omega]
    exact ih (fun x hx => hL x (List.mem_cons_of_mem d hx)) _

theorem decodeChars_natChars (n : Nat) : decodeChars (natChars n) = n := by
  unfold decodeChars natChars
  rw [List.foldl_map, decDigits_eq_digits,
    foldl_digit_step _ (fun d hd =>
      Nat.digits_lt_base (by norm_num) (List.mem_reverse.mp hd)),
    foldl_digits_reverse, Nat.ofDigits_digits]
  simp

theorem decodeChars_replicate_zero (k : Nat) (cs : List Char) :
    decodeChars (List.replicate k '0' ++ cs) = decodeChars cs := by
  unfold decodeChars
  rw [List.foldl_append]
  have h0 : ∀ j : Nat, (List.replicate j '0').foldl
      (fun a c => 10 * a + (c.toNat - 48)) 0 = 0 := by
    intro j
    induction j with
    | zero => rfl
    | succ j ih => rw [List.replicate_succ, List.foldl_cons]; exact ih
  rw [h0]

theorem decodePN_padNum (n : Nat) : decodePN ("PN-" ++ padNum 4 n) = n := by
  unfold decodePN padNum
  rw [String.data_append]
  show decodeChars ((['P', 'N', '-'] ++ padChars 4 n).drop 3) = n
  rw [show (3 : Nat) = (['P', 'N', '-'] : List Char).length from rfl,
    List.drop_left]
  unfold padChars
  rw [decodeChars_replicate_zero, decodeChars_natChars]

theorem pyRound_cases (q : ℚ) : pyRound q = ⌊q⌋ ∨ pyRound q = ⌊q⌋ + 1 := by
  unfold pyRound
  split_ifs <;> simp

theorem le_pyRound {A : ℤ} {q : ℚ} (h : (A : ℚ) ≤ q) : A ≤ pyRound q := by
  have hf : A ≤ ⌊q⌋ := Int.le_floor.mpr h
  rcases pyRound_cases q with h1 | h1 <;> omega

theorem pyRound_le {B : ℤ} {q : ℚ} (h : q < (B : ℚ)) : pyRound q ≤ B := by
  have hf : ⌊q⌋ < B := Int.floor_lt.mpr h
  rcases pyRound_cases q with h1 | h1 <;> omega

theorem uniform_lower {a b : ℚ} (x : ℚ) (h : a ≤ b) : a ≤ uniform x a b := by
  unfold uniform
  have := mul_nonneg (Int.fract_nonneg x) (sub_nonneg.mpr h)
  linarith

theorem uniform_upper {a b : ℚ} (x : ℚ) (h : a < b) : uniform x a b < b := by
  unfold uniform
  have := mul_lt_mul_of_pos_right (Int.fract_lt_one x) (sub_pos.mpr h)
  linarith

/-! ## Claims -/

/-- C1 (counterexample): the first fixture file written by the
baseline-fixture generator is requirements.csv, and its header row does
not match the §3 schema order for requirements, refuting the claim that
both top-level programs write the requirement header
title, type, priority, status, category, text, rationale, tags. -/
theorem claim_C1_counterexample :
    ((Baseline.baseline_files env0).head!).1 = "requirements.csv" ∧
    ((Baseline.baseline_files env0).head!).2.header ≠ spec3_requirement_fields :=
  ⟨rfl, by decide⟩

/-- C1 (amended): every fixture header written by the benchmark driver
matches the §3 schema order, and the baseline generator's headers match
for component, supplier, risk and test; the baseline generator's
requirement header however is title, type, priority, status, text,
rationale, category, tags — the same field set (a permutation of the §3
list) with category placed after rationale instead of before text. -/
theorem claim_C1 :
    (∀ e : Env, (requirements_file e).header = spec3_requirement_fields ∧
      (components_file e).header = spec3_component_fields ∧
      (suppliers_file e).header = spec3_supplier_fields ∧
      (risks_file e).header = spec3_risk_fields ∧
      (tests_file e).header = spec3_test_fields) ∧
    (∀ e : Env, ((Baseline.baseline_files e).map fun f => f.2.header) =
      [Baseline.baseline_req_headers, Baseline.baseline_cmp_headers,
       Baseline.baseline_sup_headers, Baseline.baseline_risk_headers,
       Baseline.baseline_test_headers]) ∧
    Baseline.baseline_cmp_headers = spec3_component_fields ∧
    Baseline.baseline_sup_headers = spec3_supplier_fields ∧
    Baseline.baseline_risk_headers = spec3_risk_fields ∧
    Baseline.baseline_test_headers = spec3_test_fields ∧
    Baseline.baseline_req_headers =
      ["title", "type", "priority", "status", "text", "rationale",
       "category", "tags"] ∧
    Baseline.baseline_req_headers ≠ spec3_requirement_fields ∧
    Baseline.baseline_req_headers.Perm spec3_requirement_fields := by
  refine ⟨fun e => ⟨rfl, rfl, rfl, rfl, rfl⟩, fun e => rfl,
    rfl, rfl, rfl, rfl, rfl, by decide, by decide⟩

/-- C2: for every random oracle and every count n, each of the five
generators returns exactly n records whose field-name list is precisely
the §3 schema list for its kind, and count 0 yields the empty list. -/
theorem claim_C2 : ∀ (e : Env) (n : Nat),
    ((generate_requirements e n).length = n ∧
      ∀ r ∈ generate_requirements e n, r.map Prod.fst = spec3_requirement_fields) ∧
    ((generate_components e n).length = n ∧
      ∀ r ∈ generate_components e n, r.map Prod.fst = spec3_component_fields) ∧
    ((generate_risks e n).length = n ∧
      ∀ r ∈ generate_risks e n, r.map Prod.fst = spec3_risk_fields) ∧
    ((generate_tests e n).length = n ∧
      ∀ r ∈ generate_tests e n, r.map Prod.fst = spec3_test_fields) ∧
    ((generate_suppliers e n).length = n ∧
      ∀ r ∈ generate_suppliers e n, r.map Prod.fst = spec3_supplier_fields) ∧
    (generate_requirements e 0 = [] ∧ generate_components e 0 = [] ∧
      generate_risks e 0 = [] ∧ generate_tests e 0 = [] ∧
      generate_suppliers e 0 = []) := by
  intro e n
  refine ⟨⟨?_, ?_⟩, ⟨?_, ?_⟩, ⟨?_, ?_⟩, ⟨?_, ?_⟩, ⟨?_, ?_⟩,
    rfl, rfl, rfl, rfl, rfl⟩
  · simp [generate_requirements]
  · intro r hr
    simp only [generate_requirements, List.mem_map] at hr
    obtain ⟨i, _, rfl⟩ := hr
    rfl
  · simp [generate_components]
  · intro r hr
    simp only [generate_components, List.mem_map] at hr
    obtain ⟨i, _, rfl⟩ := hr
    rfl
  · simp [generate_risks]
  · intro r hr
    simp only [generate_risks, List.mem_map] at hr
    obtain ⟨i, _, rfl⟩ := hr
    rfl
  · simp [generate_tests]
  · intro r hr
    simp only [generate_tests, List.mem_map] at hr
    obtain ⟨i, _, rfl⟩ := hr
    rfl
  · simp [generate_suppliers]
  · intro r hr
    simp only [generate_suppliers, List.mem_map] at hr
    obtain ⟨i, _, rfl⟩ := hr
    rfl

/-- C2 (witness): the single records generated with count 1 under the
concrete oracle env0 carry exactly the §3 field lists. -/
theorem claim_C2_witness :
    sampleRequirement.map Prod.fst = spec3_requirement_fields ∧
    sampleComponent.map Prod.fst = spec3_component_fields ∧
    sampleRisk.map Prod.fst = spec3_risk_fields := by
  refine ⟨(claim_C2 env0 1).1.2 sampleRequirement ?_,
    (claim_C2 env0 1).2.1.2 sampleComponent ?_,
    (claim_C2 env0 1).2.2.1.2 sampleRisk ?_⟩
  · rw [show generate_requirements env0 1 = [sampleRequirement] from rfl]
    exact List.mem_singleton_self _
  · rw [show generate_components env0 1 = [sampleComponent] from rfl]
    exact List.mem_singleton_self _
  · rw [show generate_risks env0 1 = [sampleRisk] from rfl]
    exact List.mem_singleton_self _

/-- C9: the baseline-fixture generator is deterministic — its record data
are the static literal tables, so the files it writes are identical for
any two process random states, and the per-kind row counts are the fixed
table sizes 25, 20, 5, 10, 12. -/
theorem claim_C9 : ∀ e₁ e₂ : Env,
    Baseline.baseline_files e₁ = Baseline.baseline_files e₂ ∧
    ((Baseline.baseline_files e₁).map fun f => f.1) =
      ["requirements.csv", "components.csv", "suppliers.csv", "risks.csv",
       "tests.csv"] ∧
    ((Baseline.baseline_files e₁).map fun f => f.2.rows.length) =
      [25, 20, 5, 10, 12] := by
  intro e₁ e₂
  refine ⟨rfl, rfl, ?_⟩
  simp [Baseline.baseline_files, write_csv, Baseline.REQUIREMENTS,
    Baseline.COMPONENTS, Baseline.SUPPLIERS, Baseline.RISKS, Baseline.TESTS]

/-- C3: the import phase issues exactly five import commands — one per
entity kind, in the fixed order req, cmp, sup, risk, test, immediately
after init in the orchestrated command sequence — each referencing that
kind's fixture file; it records exactly one Timing Result per kind whose
label names the kind and its configured count; and each fixture file
holds the declared header row plus exactly the configured number of data
rows. -/
theorem claim_C3 : ∀ (tdt csvDir : String) (proc : String → ProcRes) (e : Env),
    importCommands tdt csvDir =
      [importCmd tdt csvDir "req" "requirements.csv",
       importCmd tdt csvDir "cmp" "components.csv",
       importCmd tdt csvDir "sup" "suppliers.csv",
       importCmd tdt csvDir "risk" "risks.csv",
       importCmd tdt csvDir "test" "tests.csv"] ∧
    ((allPhases tdt csvDir).map Prod.fst).take 6 =
      (tdt ++ " init -q") :: importCommands tdt csvDir ∧
    (importResults proc tdt csvDir).length = 5 ∧
    ((importResults proc tdt csvDir).map fun r => r.1) = importLabels ∧
    importLabels =
      ["import req (500)", "import cmp (200)", "import sup (20)",
       "import risk (100)", "import test (150)"] ∧
    ((requirements_file e).header = req_headers ∧
      (requirements_file e).rows.length = NUM_REQUIREMENTS) ∧
    ((components_file e).header = cmp_headers ∧
      (components_file e).rows.length = NUM_COMPONENTS) ∧
    ((suppliers_file e).header = sup_headers ∧
      (suppliers_file e).rows.length = NUM_SUPPLIERS) ∧
    ((risks_file e).header = risk_headers ∧
      (risks_file e).rows.length = NUM_RISKS) ∧
    ((tests_file e).header = test_headers ∧
      (tests_file e).rows.length = NUM_TESTS) := by
  intro tdt csvDir proc e
  refine ⟨rfl, rfl, rfl, rfl, by decide,
    ⟨rfl, ?_⟩, ⟨rfl, ?_⟩, ⟨rfl, ?_⟩, ⟨rfl, ?_⟩, ⟨rfl, ?_⟩⟩
  · simp [requirements_file, write_csv, generate_requirements]
  · simp [components_file, write_csv, generate_components]
  · simp [suppliers_file, write_csv, generate_suppliers]
  · simp [risks_file, write_csv, generate_risks]
  · simp [tests_file, write_csv, generate_tests]

/-- C4: for every subprocess outcome, run_timed reports succeeded = true
exactly when the child's exit status is zero and passes the captured
elapsed time, stdout and stderr through unchanged; being a total
function, it never raises on a non-zero exit status. -/
theorem claim_C4 : ∀ (proc : String → ProcRes) (cmd : String),
    ((run_timed proc cmd).2.1 = true ↔ (proc cmd).returncode = 0) ∧
    (run_timed proc cmd).1 = (proc cmd).elapsed ∧
    (run_timed proc cmd).2.2.1 = (proc cmd).stdout ∧
    (run_timed proc cmd).2.2.2 = (proc cmd).stderr := by
  intro proc cmd
  refine ⟨?_, rfl, rfl, rfl⟩
  simp [run_timed]

/-- C5: the tabular writer emits the field order as the header row and one
row per record; the row depends only on the record's values at the header
fields (so record fields outside the field order are silently dropped),
prepending a field outside the field order leaves the row unchanged, and
a header field missing from the record renders as the empty string. -/
theorem claim_C5 : ∀ (headers : List String) (records : List Record),
    (write_csv headers records).header = headers ∧
    (write_csv headers records).rows.length = records.length ∧
    (∀ r₁ r₂ : Record, (∀ f ∈ headers, r₁.lookup f = r₂.lookup f) →
      writeRow headers r₁ = writeRow headers r₂) ∧
    (∀ (r : Record) (k : String) (v : Val), k ∉ headers →
      writeRow headers ((k, v) :: r) = writeRow headers r) ∧
    (∀ (r : Record) (i : Nat) (hi : i < headers.length),
      r.lookup (headers.get ⟨i, hi⟩) = none →
      (writeRow headers r)[i]? = some (.str "")) := by
  intro headers records
  refine ⟨rfl, by simp [write_csv], ?_, ?_, ?_⟩
  · intro r₁ r₂ hagree
    exact List.map_congr_left fun f hf => by rw [hagree f hf]
  · intro r k v hk
    refine List.map_congr_left fun f hf => ?_
    have hne : f ≠ k := fun h => hk (h ▸ hf)
    have hbeq : (f == k) = false := beq_eq_false_iff_ne.mpr hne
    simp [List.lookup, hbeq]
  · intro r i hi hnone
    rw [List.get_eq_getElem] at hnone
    show (List.map _ headers)[i]? = _
    rw [List.getElem?_map, List.getElem?_eq_getElem hi]
    simp [hnone]

/-- C5 (witness): with field order a, b a record carrying an extra field c
writes the same row as without it, and a record missing b writes the
empty value in b's column. -/
theorem claim_C5_witness :
    writeRow ["a", "b"] [("a", Val.int 1), ("b", Val.int 2), ("c", Val.int 3)] =
      writeRow ["a", "b"] [("a", Val.int 1), ("b", Val.int 2)] ∧
    (writeRow ["a", "b"] [("a", Val.int 1)])[1]? = some (Val.str "") := by
  refine ⟨(claim_C5 ["a", "b"] []).2.2.1 _ _ (by decide),
    (claim_C5 ["a", "b"] []).2.2.2.2 [("a", Val.int 1)] 1 (by decide) (by decide)⟩

/-- C6: the implied import throughput equals count divided by elapsed
whenever elapsed is strictly positive and is reported as 0 whenever
elapsed is non-positive, so it is defined for every elapsed value. -/
theorem claim_C6 : ∀ (count : Nat) (elapsed : ℚ),
    (0 < elapsed → importRate count elapsed = count / elapsed) ∧
    (elapsed ≤ 0 → importRate count elapsed = 0) := by
  intro c t
  constructor
  · intro h
    simp [importRate, h]
  · intro h
    simp [importRate, not_lt.mpr h]

/-- C6 (witness): at count 500 the throughput is 250 for elapsed 2 and 0
for elapsed 0. -/
theorem claim_C6_witness :
    importRate 500 2 = 250 ∧ importRate 500 0 = 0 := by
  constructor
  · rw [(claim_C6 500 2).1 (by norm_num)]
    norm_num
  · exact (claim_C6 500 0).2 le_rfl

/-- C7: the summary's total benchmark time is the sum of the elapsed
durations of all recorded Timing Results and its failure count is the
number of results with succeeded = false; in particular, if every
invocation of the target tool exits non-zero, every recorded result has
succeeded = false and the failure count equals the number of recorded
operations. -/
theorem claim_C7 : ∀ (proc : String → ProcRes) (tdt csvDir : String),
    total_time (benchResults proc tdt csvDir) =
      ((benchResults proc tdt csvDir).map fun r => r.2.1).sum ∧
    failedCount (benchResults proc tdt csvDir) =
      ((benchResults proc tdt csvDir).filter fun r => !r.2.2).length ∧
    ((∀ c, (proc c).returncode ≠ 0) →
      (∀ r ∈ benchResults proc tdt csvDir, r.2.2 = false) ∧
      failedCount (benchResults proc tdt csvDir) =
        (benchResults proc tdt csvDir).length) := by
  intro proc tdt csvDir
  refine ⟨rfl, rfl, fun hfail => ?_⟩
  have hall : ∀ r ∈ benchResults proc tdt csvDir, r.2.2 = false := by
    intro r hr
    simp only [benchResults, List.mem_map] at hr
    obtain ⟨p, _, rfl⟩ := hr
    exact beq_eq_false_iff_ne.mpr (hfail p.1)
  refine ⟨hall, ?_⟩
  unfold failedCount
  rw [List.filter_eq_self.mpr fun r hr => by rw [hall r hr]; rfl]

/-- C7 (witness): under a subprocess oracle whose child always exits with
status 1, the failure count equals the number of recorded operations. -/
theorem claim_C7_witness :
    failedCount (benchResults proc0 "tdt" "/tmp/csvs") =
      (benchResults proc0 "tdt" "/tmp/csvs").length :=
  ((claim_C7 proc0 "tdt" "/tmp/csvs").2.2 fun _ => by
    show (1 : ℤ) ≠ 0
    decide).2

/-- C8: every generated component record has a mass that is a multiple of
0.001 in the interval 0.01 to 2.0 and a cost that is a multiple of 0.01
in the interval 0.50 to 150.0, and every generated risk record has
severity, occurrence and detection integers between 1 and 10. -/
theorem claim_C8 : ∀ (e : Env) (n : Nat),
    (∀ r ∈ generate_components e n,
      (∃ q : ℚ, r.lookup "mass" = some (.rat q) ∧ 1/100 ≤ q ∧ q ≤ 2 ∧
        ∃ m : ℤ, q = (m : ℚ) / 1000) ∧
      (∃ q : ℚ, r.lookup "cost" = some (.rat q) ∧ 1/2 ≤ q ∧ q ≤ 150 ∧
        ∃ m : ℤ, q = (m : ℚ) / 100)) ∧
    (∀ r ∈ generate_risks e n,
      (∃ s : ℤ, r.lookup "severity" = some (.int s) ∧ 1 ≤ s ∧ s ≤ 10) ∧
      (∃ s : ℤ, r.lookup "occurrence" = some (.int s) ∧ 1 ≤ s ∧ s ≤ 10) ∧
      (∃ s : ℤ, r.lookup "detection" = some (.int s) ∧ 1 ≤ s ∧ s ≤ 10)) := by
  intro e n
  constructor
  · intro r hr
    simp only [generate_components, List.mem_map] at hr
    obtain ⟨i, _, rfl⟩ := hr
    constructor
    · have hu1 : (1/100 : ℚ) ≤ uniform (e.rat i 0) (1/100) 2 :=
        uniform_lower _ (by norm_num)
      have hu2 : uniform (e.rat i 0) (1/100) 2 < 2 :=
        uniform_upper _ (by norm_num)
      have e3 : roundTo 3 (uniform (e.rat i 0) (1/100) 2)
          = (pyRound (uniform (e.rat i 0) (1/100) 2 * 1000) : ℚ) / 1000 := by
        norm_num [roundTo]
      have hA : (10 : ℤ) ≤ pyRound (uniform (e.rat i 0) (1/100) 2 * 1000) :=
        le_pyRound (by push_cast; linarith)
      have hB : pyRound (uniform (e.rat i 0) (1/100) 2 * 1000) ≤ 2000 :=
        pyRound_le (by push_cast; linarith)
      have hA' : (10 : ℚ) ≤
          (pyRound (uniform (e.rat i 0) (1/100) 2 * 1000) : ℚ) := by
        exact_mod_cast hA
      have hB' : (pyRound (uniform (e.rat i 0) (1/100) 2 * 1000) : ℚ) ≤ 2000 := by
        exact_mod_cast hB
      exact ⟨roundTo 3 (uniform (e.rat i 0) (1/100) 2), rfl,
        by rw [e3]; linarith, by rw [e3]; linarith,
        pyRound (uniform (e.rat i 0) (1/100) 2 * 1000), e3⟩
    · have hu1 : (1/2 : ℚ) ≤ uniform (e.rat i 1) (1/2) 150 :=
        uniform_lower _ (by norm_num)
      have hu2 : uniform (e.rat i 1) (1/2) 150 < 150 :=
        uniform_upper _ (by norm_num)
      have e2 : roundTo 2 (uniform (e.rat i 1) (1/2) 150)
          = (pyRound (uniform (e.rat i 1) (1/2) 150 * 100) : ℚ) / 100 := by
        norm_num [roundTo]
      have hA : (50 : ℤ) ≤ pyRound (uniform (e.rat i 1) (1/2) 150 * 100) :=
        le_pyRound (by push_cast; linarith)
      have hB : pyRound (uniform (e.rat i 1) (1/2) 150 * 100) ≤ 15000 :=
        pyRound_le (by push_cast; linarith)
      have hA' : (50 : ℚ) ≤
          (pyRound (uniform (e.rat i 1) (1/2) 150 * 100) : ℚ) := by
        exact_mod_cast hA
      have hB' : (pyRound (uniform (e.rat i 1) (1/2) 150 * 100) : ℚ) ≤ 15000 := by
        exact_mod_cast hB
      exact ⟨roundTo 2 (uniform (e.rat i 1) (1/2) 150), rfl,
        by rw [e2]; linarith, by rw [e2]; linarith,
        pyRound (uniform (e.rat i 1) (1/2) 150 * 100), e2⟩
  · intro r hr
    simp only [generate_risks, List.mem_map] at hr
    obtain ⟨i, _, rfl⟩ := hr
    refine ⟨⟨_, rfl, ?_, ?_⟩, ⟨_, rfl, ?_, ?_⟩, ⟨_, rfl, ?_, ?_⟩⟩ <;>
      simp only [randint] <;> omega

/-- C8 (witness): the concrete component and risk records generated with
count 1 under env0 satisfy the mass and severity range facts. -/
theorem claim_C8_witness :
    (∃ q : ℚ, sampleComponent.lookup "mass" = some (.rat q) ∧
      1/100 ≤ q ∧ q ≤ 2 ∧ ∃ m : ℤ, q = (m : ℚ) / 1000) ∧
    (∃ s : ℤ, sampleRisk.lookup "severity" = some (.int s) ∧
      1 ≤ s ∧ s ≤ 10) := by
  constructor
  · refine (((claim_C8 env0 1).1 sampleComponent ?_).1)
    rw [show generate_components env0 1 = [sampleComponent] from rfl]
    exact List.mem_singleton_self _
  · refine (((claim_C8 env0 1).2 sampleRisk ?_).1)
    rw [show generate_risks env0 1 = [sampleRisk] from rfl]
    exact List.mem_singleton_self _

/-- C10: within one generator call the part_number values of the n
generated component records are pairwise distinct, because each embeds
the zero-padded decimal rendering of its distinct sequential index. -/
theorem claim_C10 : ∀ (e : Env) (n : Nat),
    ((generate_components e n).map fun r => r.lookup "part_number").Pairwise
      (· ≠ ·) := by
  intro e n
  unfold generate_components
  rw [List.map_map, List.pairwise_map]
  refine (List.pairwise_lt_range n).imp ?_
  intro i j hij heq
  have h2 : (some (Val.str ("PN-" ++ padNum 4 (i+1))) : Option Val)
      = some (Val.str ("PN-" ++ padNum 4 (j+1))) := heq
  injection h2 with h2'
  injection h2' with h3
  have h4 := congrArg decodePN h3
  rw [decodePN_padNum, decodePN_padNum] at h4
  omega

end TDT
